import Mathlib

/-!
Shallow embedding of the city-simulation core of `src/main.rs`
(bevy_city_sim): the grid model, the zone state machine, the click
handler and the periodic simulation step, together with proofs of the
specification's claims about them.
-/

namespace CitySim

set_option maxRecDepth 10000

/-- Grid width constant from `main.rs` (`const MAP_WIDTH: i32 = 32`). -/
def MAP_WIDTH : Int := 32

/-- Grid height constant from `main.rs` (`const MAP_HEIGHT: i32 = 32`). -/
def MAP_HEIGHT : Int := 32

/-- The `Zone` component: what the player builds on a tile. -/
inductive Zone where
  | Empty
  | Road
  | Residential
  | Commercial
  | Industrial
deriving DecidableEq, Repr

/-- The zone cycling transition `Zone::next` from `main.rs`. -/
def Zone.next : Zone → Zone
  | Zone.Empty => Zone.Road
  | Zone.Road => Zone.Residential
  | Zone.Residential => Zone.Commercial
  | Zone.Commercial => Zone.Industrial
  | Zone.Industrial => Zone.Empty

/-- One tile: its `Zone` component together with its `TileData`
component (`population: u32`, `jobs: u32`). -/
structure Tile where
  zone : Zone
  population : Nat
  jobs : Nat
deriving DecidableEq, Repr

/-- The tile store, indexed by the `TileCoord` component. Only
coordinates inside the map bounds correspond to spawned tiles; the
snapshot lookup `zoneMap` masks the others out. -/
def Grid := (Int × Int) → Tile

/-- A coordinate is inside the spawned 32x32 map. -/
def inBounds (c : Int × Int) : Prop :=
  0 ≤ c.1 ∧ c.1 < MAP_WIDTH ∧ 0 ≤ c.2 ∧ c.2 < MAP_HEIGHT

instance : DecidablePred inBounds := fun c => by
  unfold inBounds MAP_WIDTH MAP_HEIGHT
  infer_instance

/-- The `CityStats` resource (`population: u32`, `jobs: u32`,
`money: i64`). -/
structure CityStats where
  population : Nat
  jobs : Nat
  money : Int
deriving DecidableEq, Repr

/-- The zone snapshot `zone_map` built at the start of `simulation_step`:
it maps every spawned tile's coordinate to its zone; out-of-map
coordinates are absent. -/
def zoneMap (g : Grid) (c : Int × Int) : Option Zone :=
  if inBounds c then some (g c).zone else none

/-- The neighbor offsets checked for a Residential tile in
`simulation_step`. -/
def neighborOffsets : List (Int × Int) :=
  [(1, 0), (-1, 0), (0, 1), (0, -1)]

/-- The adjacency check of the Residential branch: does any of the four
axis-aligned neighbors exist in the snapshot with zone `Road`? -/
def adjacentRoad (g : Grid) (c : Int × Int) : Bool :=
  neighborOffsets.any fun n =>
    decide (zoneMap g (c.1 + n.1, c.2 + n.2) = some Zone.Road)

/-- The per-tile body of the `for (coord, zone, mut data)` loop in
`simulation_step`: the `match zone` with its three branches. -/
def updateTile (snap : Grid) (c : Int × Int) (t : Tile) : Tile :=
  match t.zone with
  | Zone.Residential =>
      if adjacentRoad snap c then
        { t with population := min (t.population + 1) 100 }
      else t
  | Zone.Commercial => { t with jobs := min (t.jobs + 1) 100 }
  | Zone.Industrial => { t with jobs := min (t.jobs + 1) 100 }
  | Zone.Road => { t with population := 0, jobs := 0 }
  | Zone.Empty => { t with population := 0, jobs := 0 }

/-- The coordinates of all spawned tiles, in the order of the nested
loops of `spawn_map` (`for y in 0..MAP_HEIGHT { for x in 0..MAP_WIDTH }`). -/
def allCoords : List (Int × Int) :=
  (List.range 32).flatMap fun (y : Nat) =>
    (List.range 32).map fun (x : Nat) => ((x : Int), (y : Int))

/-- The update loop of `simulation_step`: visit the tiles listed in `l`,
rewrite each tile's data from the zone snapshot `snap`, and accumulate
the running totals `total_population` and `total_jobs`. -/
def simLoop (snap : Grid) : List (Int × Int) → Grid → Nat → Nat → Grid × Nat × Nat
  | [], g, totPop, totJobs => (g, totPop, totJobs)
  | c :: rest, g, totPop, totJobs =>
      simLoop snap rest (Function.update g c (updateTile snap c (g c)))
        (totPop + (updateTile snap c (g c)).population)
        (totJobs + (updateTile snap c (g c)).jobs)

/-- One simulation tick, with the tile iteration order made explicit:
reset the totals, build the zone snapshot, run the per-tile loop, then
overwrite `stats.population` and `stats.jobs` and add the money delta
`jobs / 5 - population / 10` (i64 division; both operands nonnegative). -/
def simulation_step_order (l : List (Int × Int)) (g : Grid) (s : CityStats) :
    Grid × CityStats :=
  let r := simLoop g l g 0 0
  (r.1,
   { population := r.2.1,
     jobs := r.2.2,
     money := s.money + (((r.2.2 : Int)) / 5 - ((r.2.1 : Int)) / 10) })

/-- One simulation tick (`simulation_step` in `main.rs`) over all
spawned tiles. -/
def simulation_step (g : Grid) (s : CityStats) : Grid × CityStats :=
  simulation_step_order allCoords g s

/-- The click handler `handle_mouse_input`, from the point where the
grid coordinate `(tx, ty)` has been resolved: out-of-bounds clicks are
rejected, otherwise the unique tile at that coordinate has its zone
cycled; `CityStats` is untouched. -/
def handle_mouse_input (g : Grid) (s : CityStats) (t : Int × Int) :
    Grid × CityStats :=
  if inBounds t then
    (Function.update g t { g t with zone := (g t).zone.next }, s)
  else (g, s)

/-- Every tile as spawned by `spawn_map`: zone `Empty`, both counters 0. -/
def initialTile : Tile := { zone := Zone.Empty, population := 0, jobs := 0 }

/-- The grid as left by `spawn_map` at startup. -/
def spawn_map : Grid := fun _ => initialTile

/-- The `CityStats` resource at startup (`Default`: all zero). -/
def initialStats : CityStats := { population := 0, jobs := 0, money := 0 }

/-- States of the whole game reachable from startup by any finite
sequence of simulation ticks and resolved clicks. -/
inductive Reachable : Grid → CityStats → Prop where
  | init : Reachable spawn_map initialStats
  | tick {g s} : Reachable g s →
      Reachable (simulation_step g s).1 (simulation_step g s).2
  | click {g s} (t : Int × Int) : Reachable g s →
      Reachable (handle_mouse_input g s t).1 (handle_mouse_input g s t).2

/-- A small concrete grid used to instantiate the theorems: a
Residential tile at (0,0) with a Road above it at (0,1), an Industrial
tile at (1,0), a Residential tile at (10,10) with no Road neighbor,
everything else Empty. -/
def demoGrid : Grid := fun c =>
  if c = ((0 : Int), (0 : Int)) then
    { zone := Zone.Residential, population := 0, jobs := 0 }
  else if c = ((0 : Int), (1 : Int)) then
    { zone := Zone.Road, population := 7, jobs := 7 }
  else if c = ((1 : Int), (0 : Int)) then
    { zone := Zone.Industrial, population := 5, jobs := 0 }
  else if c = ((10 : Int), (10 : Int)) then
    { zone := Zone.Residential, population := 3, jobs := 0 }
  else initialTile

/-! Basic facts about the per-tile update. -/

theorem updateTile_zone (snap : Grid) (c : Int × Int) (t : Tile) :
    (updateTile snap c t).zone = t.zone := by
  obtain ⟨z, p, j⟩ := t
  cases z
  case Residential =>
    simp only [updateTile]
    split <;> rfl
  all_goals rfl

theorem updateTile_population_le (snap : Grid) (c : Int × Int) (t : Tile)
    (h : t.population ≤ 100) : (updateTile snap c t).population ≤ 100 := by
  obtain ⟨z, p, j⟩ := t
  cases z
  case Residential =>
    simp only [updateTile]
    split
    · exact Nat.min_le_right _ _
    · exact h
  all_goals first
  | exact h
  | exact Nat.zero_le _

theorem updateTile_jobs_le (snap : Grid) (c : Int × Int) (t : Tile)
    (h : t.jobs ≤ 100) : (updateTile snap c t).jobs ≤ 100 := by
  obtain ⟨z, p, j⟩ := t
  cases z
  case Residential =>
    simp only [updateTile]
    split
    · exact h
    · exact h
  case Commercial => exact Nat.min_le_right _ _
  case Industrial => exact Nat.min_le_right _ _
  all_goals exact Nat.zero_le _

theorem updateTile_residential (snap : Grid) (c : Int × Int) (t : Tile)
    (h : t.zone = Zone.Residential) :
    updateTile snap c t =
      if adjacentRoad snap c then
        { t with population := min (t.population + 1) 100 }
      else t := by
  obtain ⟨z, p, j⟩ := t
  cases z
  case Residential => rfl
  all_goals cases h

theorem updateTile_ci (snap : Grid) (c : Int × Int) (t : Tile)
    (h : t.zone = Zone.Commercial ∨ t.zone = Zone.Industrial) :
    updateTile snap c t = { t with jobs := min (t.jobs + 1) 100 } := by
  obtain ⟨z, p, j⟩ := t
  cases z
  case Commercial => rfl
  case Industrial => rfl
  all_goals rcases h with h | h <;> cases h

theorem updateTile_reset (snap : Grid) (c : Int × Int) (t : Tile)
    (h : t.zone = Zone.Road ∨ t.zone = Zone.Empty) :
    updateTile snap c t = { t with population := 0, jobs := 0 } := by
  obtain ⟨z, p, j⟩ := t
  cases z
  case Road => rfl
  case Empty => rfl
  all_goals rcases h with h | h <;> cases h

/-! The update loop: processing a duplicate-free list of coordinates
rewrites exactly the listed tiles, each from its pre-pass data, and the
totals accumulate the updated counters. -/

theorem simLoop_grid (snap : Grid) :
    ∀ (l : List (Int × Int)), l.Nodup → ∀ (g : Grid) (tp tj : Nat) (c : Int × Int),
      (simLoop snap l g tp tj).1 c =
        if c ∈ l then updateTile snap c (g c) else g c := by
  intro l
  induction l with
  | nil => intro _ g tp tj c; simp [simLoop]
  | cons a rest ih =>
      intro hnd g tp tj c
      obtain ⟨ha, hrest⟩ := List.nodup_cons.mp hnd
      rw [simLoop, ih hrest]
      by_cases hc : c ∈ rest
      · have hca : c ≠ a := fun h => ha (h ▸ hc)
        simp [hc, hca, Function.update_noteq hca]
      · by_cases hca : c = a
        · subst hca
          simp [hc, Function.update_same]
        · simp [hc, hca, Function.update_noteq hca]

theorem simLoop_totals (snap : Grid) :
    ∀ (l : List (Int × Int)), l.Nodup → ∀ (g : Grid) (tp tj : Nat),
      (simLoop snap l g tp tj).2.1 =
          tp + (l.map fun c => (updateTile snap c (g c)).population).sum ∧
      (simLoop snap l g tp tj).2.2 =
          tj + (l.map fun c => (updateTile snap c (g c)).jobs).sum := by
  intro l
  induction l with
  | nil => intro _ g tp tj; simp [simLoop]
  | cons a rest ih =>
      intro hnd g tp tj
      obtain ⟨ha, hrest⟩ := List.nodup_cons.mp hnd
      rw [simLoop]
      obtain ⟨h1, h2⟩ :=
        ih hrest (Function.update g a (updateTile snap a (g a)))
          (tp + (updateTile snap a (g a)).population)
          (tj + (updateTile snap a (g a)).jobs)
      have hmapP :
          (rest.map fun c =>
              (updateTile snap c
                (Function.update g a (updateTile snap a (g a)) c)).population) =
            rest.map fun c => (updateTile snap c (g c)).population := by
        refine List.map_congr_left fun c hc => ?_
        have hca : c ≠ a := fun h => ha (h ▸ hc)
        rw [Function.update_noteq hca]
      have hmapJ :
          (rest.map fun c =>
              (updateTile snap c
                (Function.update g a (updateTile snap a (g a)) c)).jobs) =
            rest.map fun c => (updateTile snap c (g c)).jobs := by
        refine List.map_congr_left fun c hc => ?_
        have hca : c ≠ a := fun h => ha (h ▸ hc)
        rw [Function.update_noteq hca]
      rw [hmapP] at h1
      rw [hmapJ] at h2
      constructor
      · rw [h1, List.map_cons, List.sum_cons]; omega
      · rw [h2, List.map_cons, List.sum_cons]; omega

/-! The coordinate list of the spawned map. -/

theorem mem_allCoords {c : Int × Int} : c ∈ allCoords ↔ inBounds c := by
  obtain ⟨cx, cy⟩ := c
  unfold allCoords inBounds MAP_WIDTH MAP_HEIGHT
  simp only [List.mem_flatMap, List.mem_map, List.mem_range]
  constructor
  · rintro ⟨y, hy, x, hx, h⟩
    simp only [Prod.mk.injEq] at h
    obtain ⟨h1, h2⟩ := h
    refine ⟨?_, ?_, ?_, ?_⟩ <;> omega
  · rintro ⟨h1, h2, h3, h4⟩
    refine ⟨cy.toNat, by omega, cx.toNat, by omega, ?_⟩
    simp only [Prod.mk.injEq]
    constructor <;> omega

theorem nodup_allCoords : allCoords.Nodup := by
  unfold allCoords
  rw [List.nodup_flatMap]
  constructor
  · intro y _
    have hinj : Function.Injective fun x : Nat => ((x : Int), (y : Int)) := by
      intro a b hab
      simp only [Prod.mk.injEq] at hab
      exact_mod_cast hab.1
    exact (List.nodup_range 32).map hinj
  · refine (List.nodup_range 32).imp ?_
    intro y₁ y₂ hne p hp₁ hp₂
    simp only [Function.onFun, List.mem_map, List.mem_range] at hp₁ hp₂
    obtain ⟨x₁, _, h₁⟩ := hp₁
    obtain ⟨x₂, _, h₂⟩ := hp₂
    apply hne
    have h12 : ((x₁ : Int), (y₁ : Int)) = ((x₂ : Int), (y₂ : Int)) := h₁.trans h₂.symm
    simp only [Prod.mk.injEq] at h12
    exact_mod_cast h12.2

set_option maxRecDepth 10000 in
theorem length_allCoords : allCoords.length = 1024 := by decide

/-! One simulation tick, componentwise. -/

theorem simulation_step_grid (g : Grid) (s : CityStats) (c : Int × Int) :
    (simulation_step g s).1 c = if inBounds c then updateTile g c (g c) else g c := by
  have h := simLoop_grid g allCoords nodup_allCoords g 0 0 c
  simpa [simulation_step, simulation_step_order, mem_allCoords] using h

theorem simulation_step_population (g : Grid) (s : CityStats) :
    (simulation_step g s).2.population =
      (allCoords.map fun c => (updateTile g c (g c)).population).sum := by
  have h := (simLoop_totals g allCoords nodup_allCoords g 0 0).1
  simpa [simulation_step, simulation_step_order] using h

theorem simulation_step_jobs (g : Grid) (s : CityStats) :
    (simulation_step g s).2.jobs =
      (allCoords.map fun c => (updateTile g c (g c)).jobs).sum := by
  have h := (simLoop_totals g allCoords nodup_allCoords g 0 0).2
  simpa [simulation_step, simulation_step_order] using h

theorem simulation_step_money (g : Grid) (s : CityStats) :
    (simulation_step g s).2.money =
      s.money + (((simulation_step g s).2.jobs : Int) / 5 -
        ((simulation_step g s).2.population : Int) / 10) := rfl

theorem simulation_step_zone (g : Grid) (s : CityStats) (c : Int × Int) :
    ((simulation_step g s).1 c).zone = (g c).zone := by
  rw [simulation_step_grid]
  split
  · exact updateTile_zone g c (g c)
  · rfl

theorem tick_ci_jobs (g : Grid) (s : CityStats) (c : Int × Int)
    (hc : inBounds c)
    (hz : (g c).zone = Zone.Commercial ∨ (g c).zone = Zone.Industrial) :
    ((simulation_step g s).1 c).jobs = min ((g c).jobs + 1) 100 := by
  rw [simulation_step_grid, if_pos hc, updateTile_ci g c (g c) hz]

/-! The claims. -/

/-- C1: on a tick, a Residential tile inside the map has its population
set to min(population + 1, 100) when at least one of its four
axis-aligned neighbors exists in the pre-tick snapshot with zone Road,
and left unchanged when no such neighbor exists (no decay); its jobs
field is untouched by this branch either way. -/
theorem claim_C1_residential_tick (g : Grid) (s : CityStats) (c : Int × Int)
    (hc : inBounds c) (hz : (g c).zone = Zone.Residential) :
    ((∃ n ∈ neighborOffsets, zoneMap g (c.1 + n.1, c.2 + n.2) = some Zone.Road) →
      ((simulation_step g s).1 c).population = min ((g c).population + 1) 100) ∧
    (¬ (∃ n ∈ neighborOffsets, zoneMap g (c.1 + n.1, c.2 + n.2) = some Zone.Road) →
      ((simulation_step g s).1 c).population = (g c).population) ∧
    ((simulation_step g s).1 c).jobs = (g c).jobs := by
  have hg : (simulation_step g s).1 c = updateTile g c (g c) := by
    rw [simulation_step_grid, if_pos hc]
  have hiff : adjacentRoad g c = true ↔
      ∃ n ∈ neighborOffsets, zoneMap g (c.1 + n.1, c.2 + n.2) = some Zone.Road := by
    simp [adjacentRoad, List.any_eq_true]
  refine ⟨?_, ?_, ?_⟩
  · intro hex
    rw [hg, updateTile_residential g c (g c) hz, if_pos (hiff.mpr hex)]
  · intro hnex
    have har : adjacentRoad g c = false := by
      rcases Bool.eq_false_or_eq_true (adjacentRoad g c) with h | h
      · exact absurd (hiff.mp h) hnex
      · exact h
    rw [hg, updateTile_residential g c (g c) hz, har, if_neg Bool.false_ne_true]
  · rw [hg, updateTile_residential g c (g c) hz]
    split <;> rfl

theorem claim_C1_residential_tick_witness :
    ((simulation_step demoGrid initialStats).1 ((0 : Int), (0 : Int))).population
        = min ((demoGrid ((0 : Int), (0 : Int))).population + 1) 100 ∧
    ((simulation_step demoGrid initialStats).1 ((10 : Int), (10 : Int))).population
        = (demoGrid ((10 : Int), (10 : Int))).population := by
  refine ⟨?_, ?_⟩
  · exact (claim_C1_residential_tick demoGrid initialStats ((0 : Int), (0 : Int))
      (by decide) (by decide)).1 (by decide)
  · exact ((claim_C1_residential_tick demoGrid initialStats ((10 : Int), (10 : Int))
      (by decide) (by decide)).2.1 (by decide))

/-- C2: on a tick, a Commercial or Industrial tile inside the map has
its jobs set to min(jobs + 1, 100), with no condition on its neighbors;
in particular an Industrial tile that starts with jobs = 0 has jobs = 3
after three consecutive ticks (each tick fed the grid and stats produced
by the previous one). -/
theorem claim_C2_jobs_tick (g : Grid) (s : CityStats) (c : Int × Int)
    (hc : inBounds c)
    (hz : (g c).zone = Zone.Commercial ∨ (g c).zone = Zone.Industrial) :
    ((simulation_step g s).1 c).jobs = min ((g c).jobs + 1) 100 ∧
    ((g c).zone = Zone.Industrial → (g c).jobs = 0 →
      ((simulation_step (simulation_step (simulation_step g s).1 (simulation_step g s).2).1
        (simulation_step (simulation_step g s).1 (simulation_step g s).2).2).1 c).jobs = 3) := by
  refine ⟨tick_ci_jobs g s c hc hz, ?_⟩
  intro hind h0
  have hz1 : ((simulation_step g s).1 c).zone = Zone.Industrial := by
    rw [simulation_step_zone]; exact hind
  have hj1 : ((simulation_step g s).1 c).jobs = 1 := by
    rw [tick_ci_jobs g s c hc (Or.inr hind), h0]
    omega
  have hz2 : ((simulation_step (simulation_step g s).1 (simulation_step g s).2).1 c).zone
      = Zone.Industrial := by
    rw [simulation_step_zone]; exact hz1
  have hj2 : ((simulation_step (simulation_step g s).1 (simulation_step g s).2).1 c).jobs
      = 2 := by
    rw [tick_ci_jobs _ _ c hc (Or.inr hz1), hj1]
    omega
  rw [tick_ci_jobs _ _ c hc (Or.inr hz2), hj2]
  omega

theorem claim_C2_jobs_tick_witness :
    ((simulation_step demoGrid initialStats).1 ((1 : Int), (0 : Int))).jobs
        = min ((demoGrid ((1 : Int), (0 : Int))).jobs + 1) 100 ∧
    ((simulation_step
        (simulation_step (simulation_step demoGrid initialStats).1
          (simulation_step demoGrid initialStats).2).1
        (simulation_step (simulation_step demoGrid initialStats).1
          (simulation_step demoGrid initialStats).2).2).1 ((1 : Int), (0 : Int))).jobs = 3 := by
  have h := claim_C2_jobs_tick demoGrid initialStats ((1 : Int), (0 : Int))
    (by decide) (Or.inr (by decide))
  exact ⟨h.1, h.2 (by decide) (by decide)⟩

/-- C3: on a tick, a tile whose zone is Road or Empty has both its
population and its jobs forced to 0, whatever they were before. -/
theorem claim_C3_reset_tick (g : Grid) (s : CityStats) (c : Int × Int)
    (hc : inBounds c)
    (hz : (g c).zone = Zone.Road ∨ (g c).zone = Zone.Empty) :
    ((simulation_step g s).1 c).population = 0 ∧
    ((simulation_step g s).1 c).jobs = 0 := by
  rw [simulation_step_grid, if_pos hc, updateTile_reset g c (g c) hz]
  exact ⟨rfl, rfl⟩

theorem claim_C3_reset_tick_witness :
    ((simulation_step demoGrid initialStats).1 ((0 : Int), (1 : Int))).population = 0 ∧
    ((simulation_step demoGrid initialStats).1 ((0 : Int), (1 : Int))).jobs = 0 :=
  claim_C3_reset_tick demoGrid initialStats ((0 : Int), (1 : Int))
    (by decide) (Or.inl (by decide))

/-- C4: after a tick, the stats' population and jobs fields are exactly
the sums over all spawned tiles of the post-update per-tile population
and jobs (a full overwrite of the previous totals), and the money field
is its pre-tick value plus the difference of the floored quotients
total_jobs / 5 and total_population / 10 (Nat division; both floor and
truncation toward zero agree here since the operands are nonnegative). -/
theorem claim_C4_stats_tick (g : Grid) (s : CityStats) :
    (simulation_step g s).2.population =
      (allCoords.map fun c => ((simulation_step g s).1 c).population).sum ∧
    (simulation_step g s).2.jobs =
      (allCoords.map fun c => ((simulation_step g s).1 c).jobs).sum ∧
    (simulation_step g s).2.money =
      s.money + (((simulation_step g s).2.jobs / 5 : Nat) : Int)
        - (((simulation_step g s).2.population / 10 : Nat) : Int) := by
  refine ⟨?_, ?_, ?_⟩
  · rw [simulation_step_population]
    exact congrArg List.sum (List.map_congr_left fun c hc => by
      rw [simulation_step_grid, if_pos (mem_allCoords.mp hc)])
  · rw [simulation_step_jobs]
    exact congrArg List.sum (List.map_congr_left fun c hc => by
      rw [simulation_step_grid, if_pos (mem_allCoords.mp hc)])
  · rw [simulation_step_money]
    have e5 : (((simulation_step g s).2.jobs / 5 : Nat) : Int)
        = ((simulation_step g s).2.jobs : Int) / 5 := by
      exact_mod_cast Int.natCast_div _ 5
    have e10 : (((simulation_step g s).2.population / 10 : Nat) : Int)
        = ((simulation_step g s).2.population : Int) / 10 := by
      exact_mod_cast Int.natCast_div _ 10
    rw [e5, e10]
    ring

/-- C7: a tick never changes any tile's zone; a Commercial or
Industrial tile keeps its population unchanged through the tick (so
population gained while Residential persists after rezoning), and that
population is still counted in the city-wide total; a Residential tile
keeps its jobs unchanged. -/
theorem claim_C7_tick_frame (g : Grid) (s : CityStats) (c : Int × Int) :
    ((simulation_step g s).1 c).zone = (g c).zone ∧
    (((g c).zone = Zone.Commercial ∨ (g c).zone = Zone.Industrial) →
      ((simulation_step g s).1 c).population = (g c).population ∧
      (inBounds c → (g c).population ≤ (simulation_step g s).2.population)) ∧
    ((g c).zone = Zone.Residential →
      ((simulation_step g s).1 c).jobs = (g c).jobs) := by
  refine ⟨simulation_step_zone g s c, fun hz => ⟨?_, fun hc => ?_⟩, fun hz => ?_⟩
  · rw [simulation_step_grid]
    split
    · rw [updateTile_ci g c (g c) hz]
    · rfl
  · rw [simulation_step_population]
    have hmem : (updateTile g c (g c)).population ∈
        allCoords.map fun d => (updateTile g d (g d)).population :=
      List.mem_map_of_mem _ (mem_allCoords.mpr hc)
    have heq : (updateTile g c (g c)).population = (g c).population := by
      rw [updateTile_ci g c (g c) hz]
    calc (g c).population = (updateTile g c (g c)).population := heq.symm
      _ ≤ _ := List.single_le_sum (fun x _ => Nat.zero_le x) _ hmem
  · rw [simulation_step_grid]
    split
    · rw [updateTile_residential g c (g c) hz]
      split <;> rfl
    · rfl

theorem claim_C7_tick_frame_witness :
    ((simulation_step demoGrid initialStats).1 ((1 : Int), (0 : Int))).zone
        = (demoGrid ((1 : Int), (0 : Int))).zone ∧
    ((simulation_step demoGrid initialStats).1 ((1 : Int), (0 : Int))).population
        = (demoGrid ((1 : Int), (0 : Int))).population ∧
    (demoGrid ((1 : Int), (0 : Int))).population
        ≤ (simulation_step demoGrid initialStats).2.population := by
  have h := claim_C7_tick_frame demoGrid initialStats ((1 : Int), (0 : Int))
  have h2 := h.2.1 (Or.inr (by decide))
  exact ⟨h.1, h2.1, h2.2 (by decide)⟩

/-- C9: the zone transition cycles through the five states in the fixed
order Empty, Road, Residential, Commercial, Industrial and wraps, so
five applications of next return any starting zone, and Empty in
particular, to itself. -/
theorem claim_C9_next_cycle :
    Zone.next (Zone.next (Zone.next (Zone.next (Zone.next Zone.Empty)))) = Zone.Empty ∧
    ∀ z : Zone, Zone.next (Zone.next (Zone.next (Zone.next (Zone.next z)))) = z :=
  ⟨rfl, fun z => by cases z <;> rfl⟩

theorem reachable_bounds (g : Grid) (s : CityStats) (h : Reachable g s) :
    ∀ c, (g c).population ≤ 100 ∧ (g c).jobs ≤ 100 := by
  induction h with
  | init =>
      intro c
      exact ⟨Nat.zero_le _, Nat.zero_le _⟩
  | tick hr ih =>
      intro c
      rw [simulation_step_grid]
      split
      · exact ⟨updateTile_population_le _ _ _ (ih c).1,
          updateTile_jobs_le _ _ _ (ih c).2⟩
      · exact ih c
  | click t hr ih =>
      intro c
      unfold handle_mouse_input
      split
      · dsimp only
        by_cases hct : c = t
        · subst hct
          rw [Function.update_same]
          exact ih c
        · rw [Function.update_noteq hct]
          exact ih c
      · exact ih c

/-- C5: in every state reachable from startup (all counters zero) by
any finite sequence of ticks and clicks, every tile's population and
jobs lie within the range 0 to 100. -/
theorem claim_C5_counters_in_range (g : Grid) (s : CityStats)
    (h : Reachable g s) (c : Int × Int) :
    0 ≤ (g c).population ∧ (g c).population ≤ 100 ∧
    0 ≤ (g c).jobs ∧ (g c).jobs ≤ 100 :=
  ⟨Nat.zero_le _, (reachable_bounds g s h c).1,
   Nat.zero_le _, (reachable_bounds g s h c).2⟩

theorem claim_C5_counters_in_range_witness :
    0 ≤ (spawn_map ((0 : Int), (0 : Int))).population ∧
    (spawn_map ((0 : Int), (0 : Int))).population ≤ 100 ∧
    0 ≤ (spawn_map ((0 : Int), (0 : Int))).jobs ∧
    (spawn_map ((0 : Int), (0 : Int))).jobs ≤ 100 :=
  claim_C5_counters_in_range spawn_map initialStats Reachable.init
    ((0 : Int), (0 : Int))

/-- C6: the outcome of one tick does not depend on the order in which
the tiles are visited: running the update loop over any permutation of
the tile list, against the zone snapshot taken at the start of the
pass, produces the same final grid and the same stats. -/
theorem claim_C6_order_independent (l : List (Int × Int)) (g : Grid)
    (s : CityStats) (hl : l.Perm allCoords) :
    simulation_step_order l g s = simulation_step g s := by
  have hnd : l.Nodup := hl.nodup_iff.mpr nodup_allCoords
  have h1 : (simLoop g l g 0 0).1 = (simLoop g allCoords g 0 0).1 := by
    funext c
    rw [simLoop_grid g l hnd, simLoop_grid g allCoords nodup_allCoords]
    by_cases hc : c ∈ allCoords
    · rw [if_pos (hl.mem_iff.mpr hc), if_pos hc]
    · rw [if_neg (fun hmem => hc (hl.mem_iff.mp hmem)), if_neg hc]
  have h2 : (simLoop g l g 0 0).2.1 = (simLoop g allCoords g 0 0).2.1 := by
    rw [(simLoop_totals g l hnd g 0 0).1,
      (simLoop_totals g allCoords nodup_allCoords g 0 0).1]
    have hs := List.Perm.sum_eq
      (hl.map fun c => (updateTile g c (g c)).population)
    omega
  have h3 : (simLoop g l g 0 0).2.2 = (simLoop g allCoords g 0 0).2.2 := by
    rw [(simLoop_totals g l hnd g 0 0).2,
      (simLoop_totals g allCoords nodup_allCoords g 0 0).2]
    have hs := List.Perm.sum_eq
      (hl.map fun c => (updateTile g c (g c)).jobs)
    omega
  show simulation_step_order l g s = simulation_step_order allCoords g s
  simp only [simulation_step_order]
  rw [h1, h2, h3]

theorem claim_C6_order_independent_witness :
    simulation_step_order allCoords.reverse demoGrid initialStats
      = simulation_step demoGrid initialStats :=
  claim_C6_order_independent allCoords.reverse demoGrid initialStats
    (List.reverse_perm allCoords)

/-- C8: a click resolved to an in-bounds coordinate advances exactly
that tile's zone by one step of the cycle and changes nothing else: all
other tiles are untouched, no tile's population or jobs change, and the
stats are untouched; a click resolved out of bounds changes nothing at
all. -/
theorem claim_C8_click_frame (g : Grid) (s : CityStats) (t : Int × Int) :
    (inBounds t →
      (handle_mouse_input g s t).1 t = { g t with zone := (g t).zone.next } ∧
      (∀ c, c ≠ t → (handle_mouse_input g s t).1 c = g c) ∧
      (∀ c, ((handle_mouse_input g s t).1 c).population = (g c).population ∧
        ((handle_mouse_input g s t).1 c).jobs = (g c).jobs) ∧
      (handle_mouse_input g s t).2 = s) ∧
    (¬ inBounds t → handle_mouse_input g s t = (g, s)) := by
  constructor
  · intro ht
    unfold handle_mouse_input
    rw [if_pos ht]
    dsimp only
    refine ⟨by rw [Function.update_same], fun c hct => by rw [Function.update_noteq hct],
      fun c => ?_, rfl⟩
    by_cases hct : c = t
    · subst hct
      rw [Function.update_same]
      exact ⟨rfl, rfl⟩
    · rw [Function.update_noteq hct]
      exact ⟨rfl, rfl⟩
  · intro ht
    unfold handle_mouse_input
    rw [if_neg ht]

theorem claim_C8_click_frame_witness :
    (handle_mouse_input demoGrid initialStats ((3 : Int), (4 : Int))).1
        ((3 : Int), (4 : Int))
      = { demoGrid ((3 : Int), (4 : Int)) with
          zone := (demoGrid ((3 : Int), (4 : Int))).zone.next } ∧
    (handle_mouse_input demoGrid initialStats ((3 : Int), (4 : Int))).2
      = initialStats ∧
    handle_mouse_input demoGrid initialStats ((40 : Int), (0 : Int))
      = (demoGrid, initialStats) := by
  have hin := (claim_C8_click_frame demoGrid initialStats ((3 : Int), (4 : Int))).1
    (by decide)
  have hout := (claim_C8_click_frame demoGrid initialStats ((40 : Int), (0 : Int))).2
    (by decide)
  exact ⟨hin.1, hin.2.2.2, hout⟩

/-- C10: with every tile's counters within the 0..100 clamp, the
city-wide totals accumulated by a tick stay at most 102400 = 1024 * 100
(and in particular below 2^32, so the u32 accumulations cannot
overflow); every partial accumulation over a duplicate-free subset of
the tiles obeys the same bound; and the per-tick money delta lies
between -10240 and 20480. -/
theorem claim_C10_no_overflow (g : Grid) (s : CityStats)
    (h : ∀ c, inBounds c → (g c).population ≤ 100 ∧ (g c).jobs ≤ 100) :
    (simulation_step g s).2.population ≤ 102400 ∧
    (simulation_step g s).2.jobs ≤ 102400 ∧
    (simulation_step g s).2.population < 2 ^ 32 ∧
    (simulation_step g s).2.jobs < 2 ^ 32 ∧
    (∀ l : List (Int × Int), l.Nodup → l ⊆ allCoords →
      (simLoop g l g 0 0).2.1 ≤ 102400 ∧ (simLoop g l g 0 0).2.2 ≤ 102400) ∧
    (-10240 : Int) ≤ (simulation_step g s).2.money - s.money ∧
    (simulation_step g s).2.money - s.money ≤ 20480 := by
  have hpart : ∀ l : List (Int × Int), l.Nodup → l ⊆ allCoords →
      (simLoop g l g 0 0).2.1 ≤ 102400 ∧ (simLoop g l g 0 0).2.2 ≤ 102400 := by
    intro l hnd hsub
    obtain ⟨h1, h2⟩ := simLoop_totals g l hnd g 0 0
    have hlen : l.length ≤ 1024 := by
      have hle := (List.subperm_of_subset hnd hsub).length_le
      rw [length_allCoords] at hle
      exact hle
    constructor
    · rw [h1]
      have hb : ∀ x ∈ l.map fun c => (updateTile g c (g c)).population, x ≤ 100 := by
        intro x hx
        obtain ⟨c, hcl, rfl⟩ := List.mem_map.mp hx
        exact updateTile_population_le g c (g c) (h c (mem_allCoords.mp (hsub hcl))).1
      have hs := List.sum_le_card_nsmul _ 100 hb
      rw [List.length_map] at hs
      simp only [smul_eq_mul] at hs
      omega
    · rw [h2]
      have hb : ∀ x ∈ l.map fun c => (updateTile g c (g c)).jobs, x ≤ 100 := by
        intro x hx
        obtain ⟨c, hcl, rfl⟩ := List.mem_map.mp hx
        exact updateTile_jobs_le g c (g c) (h c (mem_allCoords.mp (hsub hcl))).2
      have hs := List.sum_le_card_nsmul _ 100 hb
      rw [List.length_map] at hs
      simp only [smul_eq_mul] at hs
      omega
  have hmain := hpart allCoords nodup_allCoords fun _ hx => hx
  have hpopeq : (simulation_step g s).2.population = (simLoop g allCoords g 0 0).2.1 := rfl
  have hjobeq : (simulation_step g s).2.jobs = (simLoop g allCoords g 0 0).2.2 := rfl
  have hm1 : (simulation_step g s).2.population ≤ 102400 := by
    rw [hpopeq]; exact hmain.1
  have hm2 : (simulation_step g s).2.jobs ≤ 102400 := by
    rw [hjobeq]; exact hmain.2
  have hdelta : (simulation_step g s).2.money - s.money =
      (((simulation_step g s).2.jobs / 5 : Nat) : Int)
        - (((simulation_step g s).2.population / 10 : Nat) : Int) := by
    rw [simulation_step_money]
    have e5 : (((simulation_step g s).2.jobs / 5 : Nat) : Int)
        = ((simulation_step g s).2.jobs : Int) / 5 := by
      exact_mod_cast Int.natCast_div _ 5
    have e10 : (((simulation_step g s).2.population / 10 : Nat) : Int)
        = ((simulation_step g s).2.population : Int) / 10 := by
      exact_mod_cast Int.natCast_div _ 10
    rw [e5, e10]
    ring
  have hj5 : (simulation_step g s).2.jobs / 5 ≤ 102400 / 5 :=
    Nat.div_le_div_right hm2
  have hp10 : (simulation_step g s).2.population / 10 ≤ 102400 / 10 :=
    Nat.div_le_div_right hm1
  have h32 : (102400 : Nat) < 2 ^ 32 := by norm_num
  refine ⟨hm1, hm2, by omega, by omega, hpart, ?_, ?_⟩
  · rw [hdelta]; omega
  · rw [hdelta]; omega

theorem claim_C10_no_overflow_witness :
    (simulation_step demoGrid initialStats).2.population ≤ 102400 ∧
    (simulation_step demoGrid initialStats).2.jobs ≤ 102400 ∧
    (-10240 : Int) ≤ (simulation_step demoGrid initialStats).2.money
      - initialStats.money := by
  have hb : ∀ c, inBounds c →
      (demoGrid c).population ≤ 100 ∧ (demoGrid c).jobs ≤ 100 := by
    intro c _
    unfold demoGrid
    split_ifs <;> exact ⟨by decide, by decide⟩
  have h := claim_C10_no_overflow demoGrid initialStats hb
  exact ⟨h.1, h.2.1, h.2.2.2.2.2.1⟩

end CitySim
